import Mathlib

/-!
Verification of the PSPNet architecture module
(`src/architectures/pspnet_architecture.py`).

The Python file builds a TensorFlow computation graph.  We embed the
graph-construction code shallowly: a tensor is a syntax tree
(`TensorExpr`) recording exactly the framework operations the source
applies, with their static spatial shapes, and each method of
`PSPNetArchitecture` becomes a Lean function from its configuration
(the fields set in `__init__`) and its tensor arguments to the graph
it builds.  Python `int(x / y)` on integers (true division followed by
truncation toward zero) is `Int.tdiv`; the float factors `1.0` / `8.0`
of `_dynamic_interpolation` are embedded as exact rationals with
`pyTrunc` playing the role of `int()`.
-/

namespace PSPNet

/-- TensorFlow dtypes, as far as the module inspects them
(`preprocess` only distinguishes `tf.float32` from the rest). -/
inductive TFDType where
  | float32
  | float64
  | int32
  | int64
  | uint8
deriving DecidableEq

/-- Python `int()` applied to an exact rational: truncation toward zero. -/
def pyTrunc (q : ℚ) : ℤ := if 0 ≤ q then q.floor else -((-q).floor)

/-- Symbolic TensorFlow tensors: one constructor per operation the source
applies.  Leaf tensors (`input`, the feature-extractor outputs) carry their
static spatial shape, exactly the information `shape.as_list()` reads.
`conv2d` records the arguments of `ops.conv2d` from `libs/compressible_ops`
(num_outputs, kernel size, stride, the optional compression ratio argument
named `compression_ratio` in the source, the `prediction_output` flag and
the optional scope). -/
inductive TensorExpr where
  | input (id : ℕ) (dtype : TFDType) (h w : ℤ)
  | fePreprocess (x : TensorExpr)
  | feOutput (slot : ℕ) (scope : String) (x : TensorExpr) (h w : ℤ)
  | conv2d (x : TensorExpr) (num_outputs kernel_size stride : ℕ)
      (compressionArg : Option ℚ) (prediction_output : Bool) (scope : Option String)
  | avgPool2d (x : TensorExpr) (kh kw sh sw : ℤ)
  | resizeBilinear (x : TensorExpr) (outH outW : ℤ) (align_corners : Bool)
  | resizeNearestNeighbor (x : TensorExpr) (outH outW : ℤ) (align_corners : Bool)
  | concat (xs : List TensorExpr) (axis : ℤ)

/-- Output extent of a stride-`s` SAME-padded convolution: `ceil (h / s)`
(TensorFlow's formula; every convolution in this file has stride 1). -/
def tfCeilDiv (h : ℤ) (s : ℕ) : ℤ := -((-h) / (s : ℤ))

/-- Static spatial shape `(height, width)` of a tensor, as
`tensor.shape.as_list()[1:3]` would report it.  Resizes produce their
target size, SAME convolutions divide by the stride (rounding up),
VALID average pooling uses TensorFlow's `(h - kh) / sh + 1` formula, and
`tf.concat` along the channel axis keeps the spatial shape of its first
argument. -/
def hwOf : TensorExpr → ℤ × ℤ
  | .input _ _ h w => (h, w)
  | .fePreprocess x => hwOf x
  | .feOutput _ _ _ h w => (h, w)
  | .conv2d x _ _ stride _ _ _ => (tfCeilDiv (hwOf x).1 stride, tfCeilDiv (hwOf x).2 stride)
  | .avgPool2d x kh kw sh sw =>
      (((hwOf x).1 - kh) / sh + 1, ((hwOf x).2 - kw) / sw + 1)
  | .resizeBilinear _ outH outW _ => (outH, outW)
  | .resizeNearestNeighbor _ outH outW _ => (outH, outW)
  | .concat xs _ =>
      match xs with
      | [] => (0, 0)
      | x :: _ => hwOf x

/-- Static dtype of a tensor.  The floating-point framework operations
produce `float32`; nearest-neighbor resize and concatenation preserve the
dtype of their input. -/
def dtypeOf : TensorExpr → TFDType
  | .input _ dt _ _ => dt
  | .fePreprocess _ => .float32
  | .feOutput _ _ _ _ _ => .float32
  | .conv2d _ _ _ _ _ _ _ => .float32
  | .avgPool2d _ _ _ _ _ => .float32
  | .resizeBilinear _ _ _ _ => .float32
  | .resizeNearestNeighbor x _ _ _ => dtypeOf x
  | .concat xs _ =>
      match xs with
      | [] => .float32
      | x :: _ => dtypeOf x

/-- The configuration fields assigned by `PSPNetArchitecture.__init__`.
(The collaborator objects `model_arg_scope`, `feature_extractor` and
`classification_loss` are modelled separately; `_output_zoom_factor`
is assigned the constant `8.0` by `__init__` and is modelled as the
constant `output_zoom_factor` below.) -/
structure PSPNetConfig where
  is_training : Bool
  num_classes : ℕ
  filter_scale : ℚ
  pooling_factors : List ℤ
  use_aux_loss : Bool
  main_loss_weight : ℚ
  aux_loss_weight : ℚ
  upsample_train_logits : Bool
  add_summaries : Bool
  scope : Option String

/-- `__init__` with the optional arguments left at their defaults
(`use_aux_loss=True`, `main_loss_weight=1`, `aux_loss_weight=0`,
`upsample_train_logits=False`, `add_summaries=True`, `scope=None`). -/
def initPSPNet (is_training : Bool) (num_classes : ℕ) (filter_scale : ℚ)
    (pooling_factors : List ℤ) : PSPNetConfig :=
  { is_training := is_training
    num_classes := num_classes
    filter_scale := filter_scale
    pooling_factors := pooling_factors
    use_aux_loss := true
    main_loss_weight := 1
    aux_loss_weight := 0
    upsample_train_logits := false
    add_summaries := true
    scope := none }

/-- `self._output_zoom_factor`, assigned the constant `8.0` in `__init__`. -/
def output_zoom_factor : ℚ := 8

def main_class_predictions_key : String := "class_predictions"

def aux_predictions_key : String := "aux_predictions"

def main_loss_key : String := "loss"

def aux_loss_key : String := "aux_loss"

/-- Modelled from the spec: `shared_feature_extractor_scope` is a property
of the base class `libs.base_model.FastSegmentationModel`, which is not in
the sources; it is a fixed variable-scope name shared by the feature
extractor.  Its concrete value is irrelevant to every claim. -/
def shared_feature_extractor_scope : String := "SharedFeatureExtractor"

/-- The abstract feature extractor: `extract_features` returns a 3-tuple of
tensors whose static spatial shapes are properties of the concrete extractor;
we record those shapes. -/
structure FeatureExtractorModel where
  firstH : ℤ
  firstW : ℤ
  backboneH : ℤ
  backboneW : ℤ
  auxH : ℤ
  auxW : ℤ

/-- `_extract_shared_features` / `PSPNetFeatureExtractor.extract_features`:
an abstract extractor invocation under a variable scope, producing the
3-tuple `(_, backbone_logits, psp_aux_out)`. -/
def extract_shared_features (fe : FeatureExtractorModel) (preprocessed_inputs : TensorExpr)
    (scope : String) : TensorExpr × TensorExpr × TensorExpr :=
  (.feOutput 0 scope preprocessed_inputs fe.firstH fe.firstW,
   .feOutput 1 scope preprocessed_inputs fe.backboneH fe.backboneW,
   .feOutput 2 scope preprocessed_inputs fe.auxH fe.auxW)

/-- The pooling window `int(input_dim / pooling_factor)` computed by
`_pspnet_pspmodule` (Python 3 true division of integers followed by
`int()`, i.e. division truncating toward zero). -/
def pooling_window (dim factor : ℤ) : ℤ := Int.tdiv dim factor

/-- `_pspnet_pspmodule`: for each pooling factor, average-pool the input
features with kernel = stride = the pooling window, apply a 1x1 convolution
to 512 channels and resize bilinearly (align_corners) back to the input
spatial shape; concatenate the input features with all branch outputs along
the channel axis (`axis=-1`) and apply a final 3x3 convolution to 512
channels with `compression_ratio = filter_scale`. -/
def pspnet_pspmodule (cfg : PSPNetConfig) (input_features : TensorExpr) : TensorExpr :=
  let input_h := (hwOf input_features).1
  let input_w := (hwOf input_features).2
  let branch_outputs := input_features ::
    cfg.pooling_factors.map (fun pooling_factor =>
      let kh := pooling_window input_h pooling_factor
      let kw := pooling_window input_w pooling_factor
      TensorExpr.resizeBilinear
        (TensorExpr.conv2d (TensorExpr.avgPool2d input_features kh kw kh kw)
          512 1 1 none false none)
        input_h input_w true)
  let branch_merge := TensorExpr.concat branch_outputs (-1)
  TensorExpr.conv2d branch_merge 512 3 1 (some cfg.filter_scale) false none

/-- `_dynamic_interpolation`: reads the input's static spatial shape and
resizes bilinearly (align_corners) to
`int((h-1)*s + 1 + ((h-1)*s)* (z-1))` by the corresponding width. -/
def dynamic_interpolation (features_to_upsample : TensorExpr)
    (s_factor z_factor : ℚ) : TensorExpr :=
  let input_h := (hwOf features_to_upsample).1
  let input_w := (hwOf features_to_upsample).2
  let shrink_h : ℚ := ((input_h : ℚ) - 1) * s_factor + 1
  let shrink_w : ℚ := ((input_w : ℚ) - 1) * s_factor + 1
  let zoom_h : ℚ := shrink_h + (shrink_h - 1) * (z_factor - 1)
  let zoom_w : ℚ := shrink_w + (shrink_w - 1) * (z_factor - 1)
  TensorExpr.resizeBilinear features_to_upsample (pyTrunc zoom_h) (pyTrunc zoom_w) true

/-- `predict`: extract shared features, run the PSP module, produce class
predictions with a 1x1 convolution to `num_classes` channels
(`prediction_output=True`), upsample them with `_dynamic_interpolation`
when not training, and add the auxiliary 1x1-convolution predictions when
training with the auxiliary loss enabled. -/
def predict (cfg : PSPNetConfig) (fe : FeatureExtractorModel)
    (preprocessed_inputs : TensorExpr) : List (String × TensorExpr) :=
  let shared := extract_shared_features fe preprocessed_inputs shared_feature_extractor_scope
  let backbone_logits := shared.2.1
  let psp_aux_out := shared.2.2
  let final_logits := pspnet_pspmodule cfg backbone_logits
  let predictions0 := TensorExpr.conv2d final_logits cfg.num_classes 1 1 none true none
  let predictions :=
    if !cfg.is_training then
      dynamic_interpolation predictions0 1 output_zoom_factor
    else predictions0
  let prediction_dict := [(main_class_predictions_key, predictions)]
  if cfg.is_training && cfg.use_aux_loss then
    prediction_dict ++
      [(aux_predictions_key,
        TensorExpr.conv2d psp_aux_out cfg.num_classes 1 1 none true (some "AuxOutput"))]
  else prediction_dict

/-- Scalar loss values as built by `loss`: an application of the
configured `classification_loss` callable, or a Python `weight * loss`
scaling of one. -/
inductive LossExpr where
  | clsLoss (predictions labels : TensorExpr)
  | scale (weight : ℚ) (e : LossExpr)

/-- Semantics of a built loss value, given an interpretation `v` of the
abstract `classification_loss` callable. -/
def evalLoss (v : TensorExpr → TensorExpr → ℚ) : LossExpr → ℚ
  | .clsLoss p l => v p l
  | .scale w e => w * evalLoss v e

/-- The inner `_resize_labels_to_logits` of `loss`: nearest-neighbor resize
(align_corners) of the labels to the static spatial shape of the logits. -/
def resize_labels_to_logits (labels logits : TensorExpr) : TensorExpr :=
  TensorExpr.resizeNearestNeighbor labels (hwOf logits).1 (hwOf logits).2 true

/-- `loss`: look up the main predictions (a missing key raises `KeyError`,
modelled as `none`), optionally upsample them when `upsample_train_logits`
is set, resize the ground-truth labels to them, and record
`main_loss_weight * classification_loss(...)` under `'loss'`; when
`use_aux_loss and is_training`, do the same for the auxiliary predictions
under `'aux_loss'` with `aux_loss_weight`. -/
def loss (cfg : PSPNetConfig) (groundtruth_labels : TensorExpr)
    (prediction_dict : List (String × TensorExpr)) :
    Option (List (String × LossExpr)) :=
  match List.lookup main_class_predictions_key prediction_dict with
  | none => none
  | some main_preds0 =>
    let main_preds :=
      if cfg.upsample_train_logits then
        dynamic_interpolation main_preds0 1 output_zoom_factor
      else main_preds0
    let main_scaled_labels := resize_labels_to_logits groundtruth_labels main_preds
    let main_loss := LossExpr.clsLoss main_preds main_scaled_labels
    let losses_dict := [(main_loss_key, LossExpr.scale cfg.main_loss_weight main_loss)]
    if cfg.use_aux_loss && cfg.is_training then
      match List.lookup aux_predictions_key prediction_dict with
      | none => none
      | some aux_preds0 =>
        let aux_preds :=
          if cfg.upsample_train_logits then
            dynamic_interpolation aux_preds0 1 output_zoom_factor
          else aux_preds0
        let aux_scaled_labels := resize_labels_to_logits groundtruth_labels aux_preds
        let first_aux_loss := LossExpr.clsLoss aux_preds aux_scaled_labels
        some (losses_dict ++
          [(aux_loss_key, LossExpr.scale cfg.aux_loss_weight first_aux_loss)])
    else some losses_dict

/-- `preprocess`: raise `ValueError` unless the input dtype is `tf.float32`,
otherwise delegate to the feature extractor's `preprocess`. -/
def preprocess (inputs : TensorExpr) : Except String TensorExpr :=
  if dtypeOf inputs ≠ TFDType.float32 then
    Except.error "preprocess expects a tf.float32 tensor"
  else
    Except.ok (TensorExpr.fePreprocess inputs)

/-- `PSPNetFeatureExtractor.restore_from_classif_checkpoint_fn`: from the
global variables (modelled by their `op.name` strings), keep those whose
name starts with the scope name and map the name with the scope stripped
(`name.replace(scope + '/', '')`) to the variable. -/
def restore_from_classif_checkpoint_fn (global_variables : List String)
    (scope_name : String) : List (String × String) :=
  (global_variables.filter (fun v => v.startsWith scope_name)).map
    (fun v => (v.replace (scope_name ++ "/") "", v))

/-- Modelled from the spec: `slim.get_variables_to_restore(exclude=...)` is
a host-framework primitive (the spec calls checkpoint variable mapping "a
direct call into the host framework's primitives"); it returns the
restorable variables except those matching an excluded name. -/
def get_variables_to_restore (global_variables : List String)
    (exclude : List String) : List String :=
  global_variables.filter (fun v => !(exclude.any (fun e => v.startsWith e)))

/-- The two shapes of value `restore_map` can return: a classification
checkpoint variable mapping, or a plain list of variables to restore. -/
inductive RestoreMapResult where
  | classificationMapping (mapping : List (String × String))
  | variablesToRestore (vars : List String)

/-- `restore_map`: raise `ValueError` for an unsupported
`fine_tune_checkpoint_type`; delegate to the feature extractor's
classification mapping for `'classification'`; return all restorable
variables except `'global_step'` for `'segmentation'`. -/
def restore_map (global_variables : List String)
    (fine_tune_checkpoint_type : String) : Except String RestoreMapResult :=
  if fine_tune_checkpoint_type ≠ "segmentation" ∧
      fine_tune_checkpoint_type ≠ "classification" then
    Except.error ("Not supported fine_tune_checkpoint_type: " ++ fine_tune_checkpoint_type)
  else if fine_tune_checkpoint_type = "classification" then
    Except.ok (RestoreMapResult.classificationMapping
      (restore_from_classif_checkpoint_fn global_variables shared_feature_extractor_scope))
  else
    Except.ok (RestoreMapResult.variablesToRestore
      (get_variables_to_restore global_variables ["global_step"]))

/-- `predict` with the method's `self` state made explicit.  The method
body assigns no instance attribute, so the state out is the state in. -/
def predictS (cfg : PSPNetConfig) (fe : FeatureExtractorModel)
    (preprocessed_inputs : TensorExpr) :
    List (String × TensorExpr) × PSPNetConfig :=
  (predict cfg fe preprocessed_inputs, cfg)

/-- `loss` with the method's `self` state made explicit (no attribute is
assigned by the method body). -/
def lossS (cfg : PSPNetConfig) (groundtruth_labels : TensorExpr)
    (prediction_dict : List (String × TensorExpr)) :
    Option (List (String × LossExpr)) × PSPNetConfig :=
  (loss cfg groundtruth_labels prediction_dict, cfg)

/-- `preprocess` with the method's `self` state made explicit (no attribute
is assigned by the method body). -/
def preprocessS (cfg : PSPNetConfig) (inputs : TensorExpr) :
    Except String TensorExpr × PSPNetConfig :=
  (preprocess inputs, cfg)

/-- `restore_map` with the method's `self` state made explicit (no
attribute is assigned by the method body). -/
def restore_mapS (cfg : PSPNetConfig) (global_variables : List String)
    (fine_tune_checkpoint_type : String) :
    Except String RestoreMapResult × PSPNetConfig :=
  (restore_map global_variables fine_tune_checkpoint_type, cfg)

/-- The `predictions` tensor built inside `predict` before the optional
evaluation-time upsampling: a 1x1 convolution with `num_classes` output
channels and `prediction_output=True` applied to the PSP-module output on
the backbone logits. -/
def class_prediction_logits (cfg : PSPNetConfig) (fe : FeatureExtractorModel)
    (preprocessed_inputs : TensorExpr) : TensorExpr :=
  TensorExpr.conv2d
    (pspnet_pspmodule cfg
      (extract_shared_features fe preprocessed_inputs shared_feature_extractor_scope).2.1)
    cfg.num_classes 1 1 none true none

/-- A configuration with `upsample_train_logits=True` (evaluation mode,
auxiliary branch inactive), used to exercise `loss`. -/
def c2cfg : PSPNetConfig :=
  { is_training := false
    num_classes := 5
    filter_scale := 1
    pooling_factors := []
    use_aux_loss := true
    main_loss_weight := 1
    aux_loss_weight := 0
    upsample_train_logits := true
    add_summaries := true
    scope := none }

/-- A concrete 2x2 main-prediction tensor. -/
def c2preds : TensorExpr := TensorExpr.input 0 TFDType.float32 2 2

/-- Concrete ground-truth labels. -/
def c2gt : TensorExpr := TensorExpr.input 1 TFDType.int32 16 16

/-- A prediction dictionary holding only the main predictions. -/
def c2pd : List (String × TensorExpr) := [(main_class_predictions_key, c2preds)]

/-- The `'loss'` entry `loss` actually builds for `c2cfg`: the
classification loss of the 8x-upsampled main predictions against labels
resized to the upsampled shape. -/
def c2actual : LossExpr :=
  LossExpr.scale c2cfg.main_loss_weight
    (LossExpr.clsLoss (dynamic_interpolation c2preds 1 output_zoom_factor)
      (resize_labels_to_logits c2gt (dynamic_interpolation c2preds 1 output_zoom_factor)))

/-- The `'loss'` entry the claim asserts for `c2cfg`: the classification
loss of the main predictions themselves against labels resized to their own
spatial shape. -/
def c2claimed : LossExpr :=
  LossExpr.scale c2cfg.main_loss_weight
    (LossExpr.clsLoss c2preds
      (TensorExpr.resizeNearestNeighbor c2gt (hwOf c2preds).1 (hwOf c2preds).2 true))

/-- A configuration with `upsample_train_logits` at its default `False`. -/
def c2wcfg : PSPNetConfig :=
  { is_training := false
    num_classes := 5
    filter_scale := 1
    pooling_factors := []
    use_aux_loss := true
    main_loss_weight := 2
    aux_loss_weight := 0
    upsample_train_logits := false
    add_summaries := true
    scope := none }

/-- The loss dictionary `loss` builds for `c2wcfg`, `c2gt`, `c2pd`. -/
def c2wld : List (String × LossExpr) :=
  [(main_loss_key,
    LossExpr.scale c2wcfg.main_loss_weight
      (LossExpr.clsLoss c2preds (resize_labels_to_logits c2gt c2preds)))]

/-- A training configuration with the auxiliary branch enabled and
`upsample_train_logits=True`, used to exercise the auxiliary loss. -/
def c4cfg : PSPNetConfig :=
  { is_training := true
    num_classes := 5
    filter_scale := 1
    pooling_factors := []
    use_aux_loss := true
    main_loss_weight := 1
    aux_loss_weight := 3
    upsample_train_logits := true
    add_summaries := true
    scope := none }

/-- Concrete 2x2 auxiliary predictions. -/
def c4aux : TensorExpr := TensorExpr.input 2 TFDType.float32 2 2

/-- A prediction dictionary with main and auxiliary predictions. -/
def c4pd : List (String × TensorExpr) :=
  [(main_class_predictions_key, c2preds), (aux_predictions_key, c4aux)]

/-- The `'aux_loss'` entry `loss` actually builds for `c4cfg`. -/
def c4actual : LossExpr :=
  LossExpr.scale c4cfg.aux_loss_weight
    (LossExpr.clsLoss (dynamic_interpolation c4aux 1 output_zoom_factor)
      (resize_labels_to_logits c2gt (dynamic_interpolation c4aux 1 output_zoom_factor)))

/-- The `'aux_loss'` entry the claim asserts for `c4cfg`. -/
def c4claimed : LossExpr :=
  LossExpr.scale c4cfg.aux_loss_weight
    (LossExpr.clsLoss c4aux
      (TensorExpr.resizeNearestNeighbor c2gt (hwOf c4aux).1 (hwOf c4aux).2 true))

/-- The full `'loss'` entry `loss` builds for `c4cfg` (needed to state the
counterexample's dictionary exactly). -/
def c4mainEntry : LossExpr :=
  LossExpr.scale c4cfg.main_loss_weight
    (LossExpr.clsLoss (dynamic_interpolation c2preds 1 output_zoom_factor)
      (resize_labels_to_logits c2gt (dynamic_interpolation c2preds 1 output_zoom_factor)))

/-- Like `c4cfg` but with `upsample_train_logits` at its default `False`. -/
def c4wcfg : PSPNetConfig :=
  { is_training := true
    num_classes := 5
    filter_scale := 1
    pooling_factors := []
    use_aux_loss := true
    main_loss_weight := 1
    aux_loss_weight := 3
    upsample_train_logits := false
    add_summaries := true
    scope := none }

/-- The loss dictionary `loss` builds for `c4wcfg`, `c2gt`, `c4pd`. -/
def c4wld : List (String × LossExpr) :=
  [(main_loss_key,
    LossExpr.scale c4wcfg.main_loss_weight
      (LossExpr.clsLoss c2preds (resize_labels_to_logits c2gt c2preds))),
   (aux_loss_key,
    LossExpr.scale c4wcfg.aux_loss_weight
      (LossExpr.clsLoss c4aux (resize_labels_to_logits c2gt c4aux)))]

/-- A concrete feature extractor with 90x90 backbone output. -/
def c5fe : FeatureExtractorModel :=
  { firstH := 360, firstW := 360, backboneH := 90, backboneW := 90,
    auxH := 90, auxW := 90 }

/-- A concrete preprocessed 720x720 float input. -/
def c5x : TensorExpr := TensorExpr.input 0 TFDType.float32 720 720

/-- An evaluation-mode configuration with the paper's pooling factors. -/
def c5cfgEval : PSPNetConfig :=
  { is_training := false
    num_classes := 19
    filter_scale := 1
    pooling_factors := [1, 2, 3, 6]
    use_aux_loss := true
    main_loss_weight := 1
    aux_loss_weight := 0
    upsample_train_logits := false
    add_summaries := true
    scope := none }

/-- The same configuration in training mode. -/
def c5cfgTrain : PSPNetConfig :=
  { is_training := true
    num_classes := 19
    filter_scale := 1
    pooling_factors := [1, 2, 3, 6]
    use_aux_loss := true
    main_loss_weight := 1
    aux_loss_weight := 0
    upsample_train_logits := false
    add_summaries := true
    scope := none }

/-- Default-constructed training configuration (aux weight 0). -/
def c9cfg : PSPNetConfig := initPSPNet true 2 1 []

/-- Prediction dictionary with main and auxiliary predictions for `c9cfg`. -/
def c9pd : List (String × TensorExpr) :=
  [(main_class_predictions_key, c2preds), (aux_predictions_key, c4aux)]

/-- The loss dictionary `loss` builds for `c9cfg`, `c2gt`, `c9pd`. -/
def c9ld : List (String × LossExpr) :=
  [(main_loss_key,
    LossExpr.scale c9cfg.main_loss_weight
      (LossExpr.clsLoss c2preds (resize_labels_to_logits c2gt c2preds))),
   (aux_loss_key,
    LossExpr.scale c9cfg.aux_loss_weight
      (LossExpr.clsLoss c4aux (resize_labels_to_logits c2gt c4aux)))]

/-- Its `'aux_loss'` entry. -/
def c9aux : LossExpr :=
  LossExpr.scale c9cfg.aux_loss_weight
    (LossExpr.clsLoss c4aux (resize_labels_to_logits c2gt c4aux))

theorem ratFloor_intCast (n : ℤ) : Rat.floor ((n : ℤ) : ℚ) = n := by
  refine le_antisymm ?_ (Rat.le_floor.mpr le_rfl)
  have h1 : ((Rat.floor ((n : ℤ) : ℚ) : ℤ) : ℚ) ≤ ((n : ℤ) : ℚ) := Rat.le_floor.mp le_rfl
  exact_mod_cast h1

theorem pyTrunc_intCast (n : ℤ) : pyTrunc ((n : ℤ) : ℚ) = n := by
  unfold pyTrunc
  split
  · exact ratFloor_intCast n
  · rw [show (-((n : ℤ) : ℚ)) = (((-n : ℤ)) : ℚ) by push_cast; ring, ratFloor_intCast]
    ring

theorem tfCeilDiv_one (h : ℤ) : tfCeilDiv h 1 = h := by
  simp [tfCeilDiv]

theorem lookup_cons_self {β : Type} (k : String) (v : β) (rest : List (String × β)) :
    List.lookup k ((k, v) :: rest) = some v := by
  simp [List.lookup]

theorem lookup_cons_ne {β : Type} (k k' : String) (hk : (k == k') = false) (v : β)
    (rest : List (String × β)) :
    List.lookup k ((k', v) :: rest) = List.lookup k rest := by
  simp [List.lookup, hk]

theorem aux_beq_main_pred : (aux_predictions_key == main_class_predictions_key) = false := rfl

theorem aux_beq_main_loss : (aux_loss_key == main_loss_key) = false := rfl

theorem dynamic_interpolation_zoom8 (t : TensorExpr) :
    dynamic_interpolation t 1 output_zoom_factor =
      TensorExpr.resizeBilinear t (8 * (hwOf t).1 - 7) (8 * (hwOf t).2 - 7) true := by
  have hz : ∀ n : ℤ,
      pyTrunc (((n : ℚ) - 1) * 1 + 1 + ((((n : ℚ) - 1) * 1 + 1) - 1) * (output_zoom_factor - 1)) =
        8 * n - 7 := by
    intro n
    have h1 : (((n : ℚ) - 1) * 1 + 1 + ((((n : ℚ) - 1) * 1 + 1) - 1) * (output_zoom_factor - 1)) =
        ((8 * n - 7 : ℤ) : ℚ) := by
      unfold output_zoom_factor
      push_cast
      ring
    rw [h1, pyTrunc_intCast]
  simp only [dynamic_interpolation]
  rw [hz, hz]

theorem hw_class_prediction_logits (cfg : PSPNetConfig) (fe : FeatureExtractorModel)
    (x : TensorExpr) :
    hwOf (class_prediction_logits cfg fe x) = (fe.backboneH, fe.backboneW) := by
  simp [class_prediction_logits, pspnet_pspmodule, extract_shared_features, hwOf, tfCeilDiv_one]

theorem loss_eq (cfg : PSPNetConfig) (gt : TensorExpr) (pd : List (String × TensorExpr))
    (mp : TensorExpr) (hm : List.lookup main_class_predictions_key pd = some mp) :
    loss cfg gt pd =
      (let main_preds :=
        if cfg.upsample_train_logits then dynamic_interpolation mp 1 output_zoom_factor else mp
      let entry := LossExpr.scale cfg.main_loss_weight
        (LossExpr.clsLoss main_preds (resize_labels_to_logits gt main_preds))
      if cfg.use_aux_loss && cfg.is_training then
        match List.lookup aux_predictions_key pd with
        | none => none
        | some ap =>
          let aux_preds :=
            if cfg.upsample_train_logits then dynamic_interpolation ap 1 output_zoom_factor else ap
          some [(main_loss_key, entry),
            (aux_loss_key, LossExpr.scale cfg.aux_loss_weight
              (LossExpr.clsLoss aux_preds (resize_labels_to_logits gt aux_preds)))]
      else some [(main_loss_key, entry)]) := by
  unfold loss
  rw [hm]
  rfl

theorem loss_none (cfg : PSPNetConfig) (gt : TensorExpr) (pd : List (String × TensorExpr))
    (hm : List.lookup main_class_predictions_key pd = none) :
    loss cfg gt pd = none := by
  unfold loss
  rw [hm]

/-- Claim C3: the PSP module average-pools the input features once per
pooling factor, in order, with kernel and stride both equal to
`(int(input_h / factor), int(input_w / factor))` (truncating division),
applies a 1x1 convolution to 512 channels and a bilinear align-corners
resize back to the input spatial size, concatenates the original input
features with all branch outputs along the channel axis (`axis = -1`), and
applies a final 3x3 convolution to 512 channels with the `filter_scale`
compression argument. -/
theorem pspmodule_structure (cfg : PSPNetConfig) (input_features : TensorExpr) :
    pspnet_pspmodule cfg input_features =
      TensorExpr.conv2d
        (TensorExpr.concat
          (input_features ::
            cfg.pooling_factors.map (fun pooling_factor =>
              TensorExpr.resizeBilinear
                (TensorExpr.conv2d
                  (TensorExpr.avgPool2d input_features
                    (Int.tdiv (hwOf input_features).1 pooling_factor)
                    (Int.tdiv (hwOf input_features).2 pooling_factor)
                    (Int.tdiv (hwOf input_features).1 pooling_factor)
                    (Int.tdiv (hwOf input_features).2 pooling_factor))
                  512 1 1 none false none)
                (hwOf input_features).1 (hwOf input_features).2 true))
          (-1))
        512 3 1 (some cfg.filter_scale) false none := rfl

/-- Claim C6: `restore_map` raises `ValueError` exactly when
`fine_tune_checkpoint_type` is neither `'segmentation'` nor
`'classification'`; for `'classification'` it returns the feature
extractor's classification-checkpoint variable mapping for the shared
feature-extractor scope, and for `'segmentation'` it returns all restorable
variables excluding only `'global_step'`. -/
theorem restore_map_spec :
    (∀ (gv : List String) (t : String),
      (∃ m, restore_map gv t = Except.error m) ↔
        (t ≠ "segmentation" ∧ t ≠ "classification")) ∧
    (∀ gv : List String,
      restore_map gv "classification" =
        Except.ok (RestoreMapResult.classificationMapping
          (restore_from_classif_checkpoint_fn gv shared_feature_extractor_scope))) ∧
    (∀ gv : List String,
      restore_map gv "segmentation" =
        Except.ok (RestoreMapResult.variablesToRestore
          (get_variables_to_restore gv ["global_step"]))) := by
  refine ⟨fun gv t => ?_, fun gv => rfl, fun gv => rfl⟩
  constructor
  · rintro ⟨m, hm⟩
    unfold restore_map at hm
    split at hm
    · next hcond => exact hcond
    · split at hm <;> exact absurd hm (by simp)
  · intro hcond
    refine ⟨"Not supported fine_tune_checkpoint_type: " ++ t, ?_⟩
    unfold restore_map
    rw [if_pos hcond]

/-- Witness for C6 at concrete inputs: the classification branch returns
the scope mapping, and an unsupported type raises. -/
theorem restore_map_spec_witness :
    restore_map ["global_step", "SharedFeatureExtractor/conv1/weights"] "classification" =
      Except.ok (RestoreMapResult.classificationMapping
        (restore_from_classif_checkpoint_fn
          ["global_step", "SharedFeatureExtractor/conv1/weights"]
          shared_feature_extractor_scope)) ∧
    (∃ m, restore_map [] "detection" = Except.error m) :=
  ⟨restore_map_spec.2.1 ["global_step", "SharedFeatureExtractor/conv1/weights"],
   (restore_map_spec.1 [] "detection").mpr (by decide)⟩

/-- Claim C7: the public operations, with the method `self` state made
explicit, leave every configuration field set by `__init__` unchanged. -/
theorem public_methods_keep_config (cfg : PSPNetConfig) (fe : FeatureExtractorModel)
    (x gt inputs : TensorExpr) (pd : List (String × TensorExpr))
    (gv : List String) (t : String) :
    (preprocessS cfg inputs).2 = cfg ∧ (predictS cfg fe x).2 = cfg ∧
    (lossS cfg gt pd).2 = cfg ∧ (restore_mapS cfg gv t).2 = cfg :=
  ⟨rfl, rfl, rfl, rfl⟩

/-- Claim C8: `preprocess` raises `ValueError` for every input whose dtype
is not `tf.float32`, and for every `tf.float32` input it returns exactly
the feature extractor's `preprocess` applied to that input. -/
theorem preprocess_spec (inputs : TensorExpr) :
    preprocess inputs =
      (if dtypeOf inputs = TFDType.float32 then
        Except.ok (TensorExpr.fePreprocess inputs)
      else
        Except.error "preprocess expects a tf.float32 tensor") := by
  unfold preprocess
  by_cases h : dtypeOf inputs = TFDType.float32 <;> simp [h]

/-- Claim C10: the pooling window is the truncating division
`int(input_dim / pooling_factor)`; for a positive factor and nonnegative
spatial dimensions, both window components are positive exactly when the
factor is at most `min(input_h, input_w)`, and a factor exceeding a
dimension makes that window component zero. -/
theorem pooling_window_spec (h w f : ℤ) (hf : 0 < f) (hh : 0 ≤ h) (hw : 0 ≤ w) :
    ((0 < pooling_window h f ∧ 0 < pooling_window w f) ↔ f ≤ min h w) ∧
    (h < f → pooling_window h f = 0) := by
  have key : ∀ d : ℤ, 0 ≤ d → (0 < pooling_window d f ↔ f ≤ d) := by
    intro d hd
    rw [pooling_window, Int.tdiv_eq_ediv hd hf.le]
    constructor
    · intro hpos
      have h1 : (1 : ℤ) ≤ d / f := hpos
      have := (Int.le_ediv_iff_mul_le hf).mp h1
      linarith
    · intro hfd
      have h1 : (1 : ℤ) ≤ d / f := (Int.le_ediv_iff_mul_le hf).mpr (by linarith)
      exact h1
  constructor
  · rw [key h hh, key w hw]
    exact (le_min_iff).symm
  · intro hlt
    rw [pooling_window, Int.tdiv_eq_ediv hh hf.le]
    exact Int.ediv_eq_zero_of_lt hh hlt

/-- Witness for C10 at `input_h = input_w = 6`: factor 3 gives a positive
window, factor 7 (exceeding the dimension) gives window 0. -/
theorem pooling_window_spec_witness :
    0 < pooling_window 6 3 ∧ pooling_window 6 7 = 0 :=
  ⟨((pooling_window_spec 6 6 3 (by decide) (by decide) (by decide)).1.mpr (by decide)).1,
   (pooling_window_spec 6 6 7 (by decide) (by decide) (by decide)).2 (by decide)⟩

/-- Claim C1: for every preprocessed input `predict` returns a dictionary
containing the key `'class_predictions'`, whose value is the per-pixel
class score tensor produced by the 1x1 convolution with `num_classes`
output channels applied to the PSP-module output (delivered as-is in
training, and through the evaluation-time bilinear upsampling otherwise). -/
theorem predict_main_class_predictions (cfg : PSPNetConfig) (fe : FeatureExtractorModel)
    (x : TensorExpr) :
    ∃ p, List.lookup main_class_predictions_key (predict cfg fe x) = some p ∧
      (p = class_prediction_logits cfg fe x ∨
        p = dynamic_interpolation (class_prediction_logits cfg fe x) 1 output_zoom_factor) := by
  cases ht : cfg.is_training
  · refine ⟨dynamic_interpolation (class_prediction_logits cfg fe x) 1 output_zoom_factor,
      ?_, Or.inr rfl⟩
    simp [predict, ht, lookup_cons_self, class_prediction_logits]
  · refine ⟨class_prediction_logits cfg fe x, ?_, Or.inl rfl⟩
    cases ha : cfg.use_aux_loss <;>
      simp [predict, ht, ha, lookup_cons_self, class_prediction_logits]

/-- Claim C5: when `is_training` is false the class predictions returned by
`predict` are the `_dynamic_interpolation` bilinear upsampling with zoom
factor 8 of the 1x1-convolution scores, of spatial size
`(8*h - 7, 8*w - 7)` (that is, `8*(h-1)+1` by `8*(w-1)+1` for the
backbone's `h` by `w` score map); when `is_training` is true no upsampling
is applied in `predict`. -/
theorem predict_eval_upsample (cfg : PSPNetConfig) (fe : FeatureExtractorModel)
    (x : TensorExpr) :
    (cfg.is_training = false →
      List.lookup main_class_predictions_key (predict cfg fe x) =
        some (TensorExpr.resizeBilinear (class_prediction_logits cfg fe x)
          (8 * fe.backboneH - 7) (8 * fe.backboneW - 7) true)) ∧
    (cfg.is_training = true →
      List.lookup main_class_predictions_key (predict cfg fe x) =
        some (class_prediction_logits cfg fe x)) := by
  constructor
  · intro ht
    have h8 := dynamic_interpolation_zoom8 (class_prediction_logits cfg fe x)
    rw [hw_class_prediction_logits] at h8
    simp only [Prod.fst, Prod.snd] at h8
    rw [← h8]
    simp [predict, ht, lookup_cons_self, class_prediction_logits]
  · intro ht
    cases ha : cfg.use_aux_loss <;>
      simp [predict, ht, ha, lookup_cons_self, class_prediction_logits]

/-- Witness for C5: a concrete 90x90 backbone in evaluation mode yields a
`(8*90-7) x (8*90-7)` bilinear upsampling, and in training mode the raw
convolution scores. -/
theorem predict_eval_upsample_witness :
    List.lookup main_class_predictions_key (predict c5cfgEval c5fe c5x) =
      some (TensorExpr.resizeBilinear (class_prediction_logits c5cfgEval c5fe c5x)
        (8 * c5fe.backboneH - 7) (8 * c5fe.backboneW - 7) true) ∧
    List.lookup main_class_predictions_key (predict c5cfgTrain c5fe c5x) =
      some (class_prediction_logits c5cfgTrain c5fe c5x) :=
  ⟨(predict_eval_upsample c5cfgEval c5fe c5x).1 rfl,
   (predict_eval_upsample c5cfgTrain c5fe c5x).2 rfl⟩

/-- Counterexample to claim C2 as stated: with `upsample_train_logits=True`
the `'loss'` entry is the classification loss of the upsampled main
predictions against labels resized to the upsampled shape — not of the main
predictions themselves against labels resized to their shape. -/
theorem c2_upsample_counterexample :
    loss c2cfg c2gt c2pd = some [(main_loss_key, c2actual)] ∧ c2actual ≠ c2claimed := by
  refine ⟨rfl, ?_⟩
  simp [c2actual, c2claimed, c2preds, dynamic_interpolation, resize_labels_to_logits]

/-- Claim C2 as amended: when `upsample_train_logits` is false (its
default), whenever `loss` returns a dictionary and the prediction
dictionary contains the main predictions, the `'loss'` entry is
`main_loss_weight` times the classification loss of the main predictions
against the ground-truth labels resized by nearest-neighbor interpolation
(align_corners) to their spatial shape. -/
theorem loss_main_entry_noupsample (cfg : PSPNetConfig) (gt : TensorExpr)
    (pd : List (String × TensorExpr)) (ld : List (String × LossExpr)) (mp : TensorExpr)
    (hU : cfg.upsample_train_logits = false)
    (hL : loss cfg gt pd = some ld)
    (hm : List.lookup main_class_predictions_key pd = some mp) :
    List.lookup main_loss_key ld =
      some (LossExpr.scale cfg.main_loss_weight
        (LossExpr.clsLoss mp
          (TensorExpr.resizeNearestNeighbor gt (hwOf mp).1 (hwOf mp).2 true))) := by
  rw [loss_eq cfg gt pd mp hm] at hL
  simp only [hU, Bool.false_eq_true, if_false] at hL
  by_cases hb : (cfg.use_aux_loss && cfg.is_training) = true
  · rw [if_pos hb] at hL
    cases hax : List.lookup aux_predictions_key pd with
    | none => rw [hax] at hL; exact absurd hL (by simp)
    | some ap =>
      rw [hax] at hL
      simp only [hU, Bool.false_eq_true, if_false, Option.some.injEq] at hL
      subst hL
      exact lookup_cons_self main_loss_key _ _
  · rw [if_neg hb] at hL
    simp only [Option.some.injEq] at hL
    subst hL
    exact lookup_cons_self main_loss_key _ _

/-- Witness for the amended C2 at a concrete configuration with
`upsample_train_logits=False`. -/
theorem loss_main_entry_noupsample_witness :
    List.lookup main_loss_key c2wld =
      some (LossExpr.scale c2wcfg.main_loss_weight
        (LossExpr.clsLoss c2preds
          (TensorExpr.resizeNearestNeighbor c2gt (hwOf c2preds).1 (hwOf c2preds).2 true))) :=
  loss_main_entry_noupsample c2wcfg c2gt c2pd c2wld c2preds rfl rfl rfl

/-- Counterexample to claim C4 as stated: with `upsample_train_logits=True`
the `'aux_loss'` entry is computed from the upsampled auxiliary
predictions, not from the auxiliary predictions themselves. -/
theorem c4_upsample_counterexample :
    loss c4cfg c2gt c4pd =
      some [(main_loss_key, c4mainEntry), (aux_loss_key, c4actual)] ∧
    c4actual ≠ c4claimed := by
  refine ⟨rfl, ?_⟩
  simp [c4actual, c4claimed, c4aux, dynamic_interpolation, resize_labels_to_logits]

/-- Claim C4 as amended: `predict`'s dictionary contains
`'aux_predictions'` exactly when `is_training and use_aux_loss`; whenever
`loss` returns a dictionary it contains `'aux_loss'` exactly when
`use_aux_loss and is_training`; and when `upsample_train_logits` is false
(its default) that entry is `aux_loss_weight` times the classification loss
of the auxiliary predictions against the ground-truth labels resized by
nearest-neighbor interpolation (align_corners) to their spatial shape. -/
theorem aux_branch_activation :
    (∀ (cfg : PSPNetConfig) (fe : FeatureExtractorModel) (x : TensorExpr),
      (List.lookup aux_predictions_key (predict cfg fe x)).isSome =
        (cfg.is_training && cfg.use_aux_loss)) ∧
    (∀ (cfg : PSPNetConfig) (gt : TensorExpr) (pd : List (String × TensorExpr))
      (ld : List (String × LossExpr)),
      loss cfg gt pd = some ld →
      (List.lookup aux_loss_key ld).isSome = (cfg.use_aux_loss && cfg.is_training)) ∧
    (∀ (cfg : PSPNetConfig) (gt : TensorExpr) (pd : List (String × TensorExpr))
      (ld : List (String × LossExpr)) (ap : TensorExpr),
      cfg.upsample_train_logits = false →
      cfg.use_aux_loss = true →
      cfg.is_training = true →
      loss cfg gt pd = some ld →
      List.lookup aux_predictions_key pd = some ap →
      List.lookup aux_loss_key ld =
        some (LossExpr.scale cfg.aux_loss_weight
          (LossExpr.clsLoss ap
            (TensorExpr.resizeNearestNeighbor gt (hwOf ap).1 (hwOf ap).2 true)))) := by
  refine ⟨?_, ?_, ?_⟩
  · intro cfg fe x
    cases ht : cfg.is_training <;> cases ha : cfg.use_aux_loss <;>
      simp [predict, ht, ha, lookup_cons_self,
        lookup_cons_ne _ _ aux_beq_main_pred]
  · intro cfg gt pd ld hL
    cases hm : List.lookup main_class_predictions_key pd with
    | none => rw [loss_none _ _ _ hm] at hL; exact absurd hL (by simp)
    | some mp =>
      rw [loss_eq cfg gt pd mp hm] at hL
      by_cases hb : (cfg.use_aux_loss && cfg.is_training) = true
      · rw [if_pos hb] at hL
        cases hax : List.lookup aux_predictions_key pd with
        | none => rw [hax] at hL; exact absurd hL (by simp)
        | some ap =>
          rw [hax] at hL
          simp only [Option.some.injEq] at hL
          subst hL
          rw [hb]
          simp [lookup_cons_self, lookup_cons_ne _ _ aux_beq_main_loss]
      · rw [if_neg hb] at hL
        simp only [Option.some.injEq] at hL
        subst hL
        rw [Bool.not_eq_true] at hb
        rw [hb]
        simp [lookup_cons_ne _ _ aux_beq_main_loss]
  · intro cfg gt pd ld ap hU hA hT hL hax
    cases hm : List.lookup main_class_predictions_key pd with
    | none => rw [loss_none _ _ _ hm] at hL; exact absurd hL (by simp)
    | some mp =>
      rw [loss_eq cfg gt pd mp hm] at hL
      rw [if_pos (by rw [hA, hT]; rfl)] at hL
      rw [hax] at hL
      simp only [hU, Bool.false_eq_true, if_false, Option.some.injEq] at hL
      subst hL
      simp [lookup_cons_self, lookup_cons_ne _ _ aux_beq_main_loss,
        resize_labels_to_logits]

/-- Witness for the amended C4: a concrete training configuration with the
auxiliary branch enabled, exercising both the key-presence part and the
`'aux_loss'` value part. -/
theorem aux_branch_activation_witness :
    (List.lookup aux_predictions_key (predict c4wcfg c5fe c5x)).isSome =
      (c4wcfg.is_training && c4wcfg.use_aux_loss) ∧
    List.lookup aux_loss_key c4wld =
      some (LossExpr.scale c4wcfg.aux_loss_weight
        (LossExpr.clsLoss c4aux
          (TensorExpr.resizeNearestNeighbor c2gt (hwOf c4aux).1 (hwOf c4aux).2 true))) :=
  ⟨aux_branch_activation.1 c4wcfg c5fe c5x,
   aux_branch_activation.2.2 c4wcfg c2gt c4pd c4wld c4aux rfl rfl rfl rfl rfl⟩

/-- Claim C9: under the constructor defaults (`use_aux_loss=True`,
`aux_loss_weight=0`) in training mode, the `'aux_loss'` entry evaluates to
zero under every interpretation of the classification loss, so the
auxiliary branch contributes nothing by default. -/
theorem default_aux_loss_zero (nc : ℕ) (fs : ℚ) (pf : List ℤ) (gt : TensorExpr)
    (pd : List (String × TensorExpr)) (ld : List (String × LossExpr)) (e : LossExpr)
    (v : TensorExpr → TensorExpr → ℚ)
    (hL : loss (initPSPNet true nc fs pf) gt pd = some ld)
    (h2 : List.lookup aux_loss_key ld = some e) :
    evalLoss v e = 0 := by
  cases hm : List.lookup main_class_predictions_key pd with
  | none => rw [loss_none _ _ _ hm] at hL; exact absurd hL (by simp)
  | some mp =>
    rw [loss_eq _ _ _ mp hm] at hL
    simp only [initPSPNet, Bool.and_self, Bool.false_eq_true, eq_self_iff_true,
      if_true, if_false] at hL
    cases hax : List.lookup aux_predictions_key pd with
    | none => rw [hax] at hL; exact absurd hL (by simp)
    | some ap =>
      rw [hax] at hL
      simp only [Option.some.injEq] at hL
      subst hL
      rw [lookup_cons_ne _ _ aux_beq_main_loss, lookup_cons_self] at h2
      have he : e = LossExpr.scale 0 (LossExpr.clsLoss ap (resize_labels_to_logits gt ap)) :=
        (Option.some.inj h2).symm
      subst he
      simp [evalLoss]

/-- Witness for C9: a concrete default-constructed training model whose
`'aux_loss'` entry evaluates to zero under a nonzero interpretation of the
classification loss. -/
theorem default_aux_loss_zero_witness :
    evalLoss (fun _ _ => 37) c9aux = 0 :=
  default_aux_loss_zero 2 1 [] c2gt c9pd c9ld c9aux (fun _ _ => 37) rfl rfl

end PSPNet
